import Mathlib

/-!
Verification development for the `LoanCalculation` repository
(`student_loans/plans.py`, `student_loans/person.py`).

The Python source is shallowly embedded: Python floats are modelled as exact
rationals (`ℚ`), Python `int` as `ℕ`/`ℤ` (Python floor division `//` on
possibly-negative arguments is `Int.fdiv`), fallible code (attribute errors,
index errors, ...) returns `Except`, and the MILP built by `find_optimal_plan`
is modelled by an explicit decidable feasibility predicate over an assignment
of values to all of the model's decision variables, with one conjunct per
constraint the Python code adds to the `mip` model.

The module `constants.py` imported by `plans.py` is not part of the sources;
following the specification it only provides five rate/fee constants.  They
are threaded through as an explicit `Constants` record, so every statement
holds for arbitrary values of those constants.
-/

namespace StudentLoans

/-- Rates and fees from the repository's `constants.py`.
Modelled from the spec: `constants.py` is not among the provided sources; the
spec only says these are module-level rate constants, so their (arbitrary)
values are threaded through as parameters. -/
structure Constants where
  FEDERAL_ORIG_FEE : ℚ
  FEDERAL_RATE_SUBSIDIZED : ℚ
  FEDERAL_RATE_UNSUBSIDIZED : ℚ
  PLUS_UNSUB_RATE : ℚ
  PLUS_ORIG_FEE : ℚ
deriving DecidableEq

/-- The concrete `Plan` subclass a plan object was created from
(`plans.py` classes `StandardPlan`, `GraduatedPlan`, `ExtendedPlan`,
`PAYEPlan`, `REPAYEPlan`, `SAVEPlan`, `ICRPlan`). -/
inductive PlanKind where
  | standard
  | graduated
  | extended
  | paye
  | repaye
  | save
  | icr
deriving DecidableEq

/-- A repayment plan (`plans.py` class `Plan`): an APR, a term in years, and
(for `GraduatedPlan`) the step length and multiplier set in its constructor.
`step_years` and `alpha` are only read by the graduated-plan formulas. -/
structure Plan where
  kind : PlanKind
  annual_rate : ℚ
  term_years : ℕ
  step_years : ℕ
  alpha : ℚ
deriving DecidableEq

/-- `StandardPlan(annual_rate, term_years)` (default term 10 in Python). -/
def mkStandardPlan (annual_rate : ℚ) (term_years : ℕ) : Plan :=
  ⟨PlanKind.standard, annual_rate, term_years, 2, 3/2⟩

/-- `GraduatedPlan(annual_rate, term_years=10, step_years=2, alpha=1.5)`. -/
def mkGraduatedPlan (annual_rate : ℚ) : Plan :=
  ⟨PlanKind.graduated, annual_rate, 10, 2, 3/2⟩

/-- `ExtendedPlan(annual_rate)`: a `StandardPlan` with `term_years=25`. -/
def mkExtendedPlan (annual_rate : ℚ) : Plan :=
  ⟨PlanKind.extended, annual_rate, 25, 2, 3/2⟩

/-- `PAYEPlan(rate, term_years=20)`. -/
def mkPAYEPlan (rate : ℚ) (term_years : ℕ) : Plan :=
  ⟨PlanKind.paye, rate, term_years, 2, 3/2⟩

/-- `REPAYEPlan(rate, term_years=20)` (subclass of `PAYEPlan`, no overrides). -/
def mkREPAYEPlan (rate : ℚ) (term_years : ℕ) : Plan :=
  ⟨PlanKind.repaye, rate, term_years, 2, 3/2⟩

/-- `SAVEPlan(rate, term_years=20)` (subclass of `PAYEPlan`). -/
def mkSAVEPlan (rate : ℚ) (term_years : ℕ) : Plan :=
  ⟨PlanKind.save, rate, term_years, 2, 3/2⟩

/-- `ICRPlan(rate, term_years=25)`. -/
def mkICRPlan (rate : ℚ) (term_years : ℕ) : Plan :=
  ⟨PlanKind.icr, rate, term_years, 2, 3/2⟩

/-- A funding source (`plans.py` class `FundingSource` and its concrete
subclasses).  `PlusFederal` is omitted: its `plan_options` body references an
undefined name and cannot be executed.  `privateLoanFactory` carries
`(provider, annual_rate, origination_fee, max_years)`, `userDefinedSource`
carries `(name, plan, rate, subsidized)` exactly as the Python constructors. -/
inductive FundingSource where
  | directSubsidizedFederal
  | directUnsubsidizedFederal
  | privateLoanFactory (provider : String) (rate : ℚ) (fee : ℚ) (max_years : ℕ)
  | userDefinedSource (name : String) (plan : Plan) (rate : ℚ) (subsidized : Bool)
deriving DecidableEq

/-- A borrower (`person.py` dataclass `Person`).  The dataclass declares no
`minimum_payment_only` field; callers (the UI) attach that attribute to the
object externally, so it is modelled as an `Option`: `none` means the
attribute was never set and reading it raises `AttributeError`.
`existing_loans` is in practice a dict/list indexed at key `0` holding
`(balance, plan, source)` triples; it is modelled as a list of such entry
lists, defaulting to `[]` like the dataclass field. -/
structure Person where
  family_income : ℚ
  subsidized_loan_eligible : Bool
  starting_income : ℚ
  annual_personal_contribution : ℚ
  annual_attendance_cost : ℚ
  graduation_time : ℕ
  income_appreciation : ℚ := 3/100
  discretionary_factor : ℚ := 1/10
  min_dti : ℚ := 0
  max_dti : ℚ := 1
  payoff_min_length : ℕ := 0
  payoff_max_length : ℕ := 30
  existing_loans : List (List (ℚ × Plan × FundingSource)) := []
  minimum_payment_only : Option ℚ := none

namespace Person

/-- `Person.borrowed_amounts`: the per-year need, one entry per year in
school (`person.py` lines 19-21). -/
def borrowed_amounts (p : Person) : List ℚ :=
  List.replicate p.graduation_time (p.annual_attendance_cost - p.annual_personal_contribution)

/-- `Person.income_at_year` (`person.py` lines 23-24).  The year is an `ℤ`
because `plans.py` calls this with `(month - 1) // 12 = -1` at month 0. -/
def income_at_year (p : Person) (year : ℤ) : ℚ :=
  p.starting_income * (1 + p.income_appreciation) ^ year

/-- `Person.discretionary_income` (`person.py` lines 26-29). -/
def discretionary_income (p : Person) (year : ℤ) : ℚ :=
  max 0 (p.income_at_year year - (3/2) * 13850)

end Person

namespace Plan

/-- `Plan._m` for the base/`StandardPlan`/`ExtendedPlan` case (`plans.py`
lines 28-37): the classic annuity coefficient
`(r (1+r)^n) / ((1+r)^n - 1)` with `n = term_years*12`, `r = annual_rate/12`.
(`ℚ` division is total; Python instead raises `ZeroDivisionError` when
`annual_rate = 0`.  No statement below evaluates this at rate 0.) -/
def base_m (pl : Plan) : ℚ :=
  (pl.annual_rate / 12 * (1 + pl.annual_rate / 12) ^ (pl.term_years * 12)) /
    ((1 + pl.annual_rate / 12) ^ (pl.term_years * 12) - 1)

/-- The present value `pv` accumulated inside `GraduatedPlan._m`
(`plans.py` lines 118-122): `Σ_{m<n} alpha^(m // (step_years*12)) / (1+r)^m`. -/
def gradPv (pl : Plan) : ℚ :=
  ((List.range (pl.term_years * 12)).map
    (fun m => pl.alpha ^ (m / (pl.step_years * 12)) / (1 + pl.annual_rate / 12) ^ m)).sum

/-- The base payment `1 / pv` of `GraduatedPlan._m` (`plans.py` line 123). -/
def gradBase (pl : Plan) : ℚ := 1 / pl.gradPv

/-- `_m(month, person)`: the coefficient of the initial balance in the
minimum monthly payment, dispatched over the plan's class exactly as Python
method resolution does (`plans.py` lines 28-37, 114-125, 137-139, 152-156,
163-169).  Note that `SAVEPlan` and `ICRPlan` really do override `_m` (not
`_b`) in the source. -/
def m_ (pl : Plan) (month : ℕ) (p : Person) : ℚ :=
  match pl.kind with
  | PlanKind.standard => pl.base_m
  | PlanKind.extended => pl.base_m
  | PlanKind.graduated =>
      pl.gradBase * pl.alpha ^ (month / (pl.step_years * 12))
  | PlanKind.paye => 0
  | PlanKind.repaye => 0
  | PlanKind.save =>
      max (p.discretionary_income (((month : ℤ) - 1).fdiv 12) * (5/100) / 12) 0
  | PlanKind.icr =>
      min (p.discretionary_income (((month : ℤ) - 1).fdiv 12) * (20/100) / 12)
        (mkStandardPlan pl.annual_rate 12).base_m

/-- `_b(month, person)`: the constant part of the minimum monthly payment
(`plans.py` lines 39-47 and 141-144).  Only `PAYEPlan` (hence `REPAYEPlan`
and `SAVEPlan` by inheritance) overrides the base's `0`. -/
def b_ (pl : Plan) (month : ℕ) (p : Person) : ℚ :=
  match pl.kind with
  | PlanKind.paye | PlanKind.repaye | PlanKind.save =>
      max (p.discretionary_income (((month : ℤ) - 1).fdiv 12) * p.discretionary_factor / 12) 0
  | _ => 0

/-- `Plan.monthly_payment(balance, month, person) = _m * balance + _b`
(`plans.py` lines 49-53). -/
def monthly_payment (pl : Plan) (balance : ℚ) (month : ℕ) (p : Person) : ℚ :=
  pl.m_ month p * balance + pl.b_ month p

end Plan

/-- `_federal_plans(rate)` (`plans.py` lines 225-233). -/
def federal_plans (rate : ℚ) : List Plan :=
  [mkStandardPlan rate 10, mkGraduatedPlan rate, mkExtendedPlan rate,
   mkREPAYEPlan rate 20, mkICRPlan rate 25]

namespace FundingSource

/-- `FundingSource.limit(year, person)` with each subclass's override
(`plans.py` lines 183-188, 237-238, 249-250).  The base default (used by
`PrivateLoanFactory` and `UserDefinedSource`) is `1e9`. -/
def limit (s : FundingSource) (year : ℕ) (p : Person) : ℚ :=
  match s with
  | directSubsidizedFederal =>
      (3500 + (min year 2 : ℕ) * 1000) * (if p.subsidized_loan_eligible then 1 else 0)
  | directUnsubsidizedFederal => 2000
  | privateLoanFactory _ _ _ _ => 1000000000
  | userDefinedSource _ _ _ _ => 1000000000

/-- `FundingSource._principal_m(year, person)`: dollars owed at graduation
per dollar borrowed in `year` (`plans.py` lines 197-199, 240-241, 252-255,
287-289, 464-469). -/
def principal_m (K : Constants) (s : FundingSource) (year : ℕ) (p : Person) : ℚ :=
  match s with
  | directSubsidizedFederal => 1 + K.FEDERAL_ORIG_FEE
  | directUnsubsidizedFederal =>
      (1 + K.FEDERAL_ORIG_FEE) *
        (1 + K.FEDERAL_RATE_UNSUBSIDIZED / 12) ^ ((p.graduation_time - year) * 12)
  | privateLoanFactory _ rate fee _ =>
      (1 + fee) * (1 + rate / 12) ^ ((p.graduation_time - year) * 12)
  | userDefinedSource _ _ rate subsidized =>
      if subsidized then 1 else (1 + rate / 12) ^ ((p.graduation_time - year) * 12)

/-- `FundingSource._principal_b(year, person)`: flat cost of borrowing from
this source (`plans.py` lines 201-203); no subclass overrides the base `0`. -/
def principal_b (_K : Constants) (_s : FundingSource) (_year : ℕ) (_p : Person) : ℚ := 0

/-- `FundingSource.principal(borrow, year, person) = _principal_m * borrow +
_principal_b` (`plans.py` lines 205-217). -/
def principal (K : Constants) (s : FundingSource) (borrow : ℚ) (year : ℕ) (p : Person) : ℚ :=
  principal_m K s year p * borrow + principal_b K s year p

/-- `FundingSource.plan_options(person)` for each subclass (`plans.py` lines
243-244, 257-258, 291-292, 472-473). -/
def plan_options (K : Constants) (s : FundingSource) (_p : Person) : List Plan :=
  match s with
  | directSubsidizedFederal => federal_plans K.FEDERAL_RATE_SUBSIDIZED
  | directUnsubsidizedFederal => federal_plans K.FEDERAL_RATE_UNSUBSIDIZED
  | privateLoanFactory _ rate _ max_years => [mkStandardPlan rate max_years]
  | userDefinedSource _ plan _ _ => [plan]

end FundingSource

/-! ## Amortization replay (`Plan.amortization_schedule`, `plans.py` lines 72-95) -/

/-- One row of the amortization table: the dict appended per month, with its
monetary fields rounded to two decimals by Python's `round(x, 2)`. -/
structure ScheduleEntry where
  month : ℕ
  payment : ℚ
  principal_paid : ℚ
  interest_paid : ℚ
  balance : ℚ
deriving DecidableEq

/-- Python's `round` to the nearest integer, halves to even (modelled on
exact rationals rather than binary floats). -/
def pyRound (q : ℚ) : ℤ :=
  if q - ⌊q⌋ < 1/2 then ⌊q⌋
  else if (1:ℚ)/2 < q - ⌊q⌋ then ⌊q⌋ + 1
  else if (2 : ℤ) ∣ ⌊q⌋ then ⌊q⌋ else ⌊q⌋ + 1

/-- `round(x, 2)`: round to two decimal places. -/
def round2 (q : ℚ) : ℚ := (pyRound (q * 100) : ℚ) / 100

/-- The loop body of `amortization_schedule`: starting at month `m` with the
current `balance`, process at most `fuel` more months, reading each month's
payment from the `overpayments` trace and breaking once the updated balance
falls to `0.01` or below (`plans.py` lines 81-94). -/
def schedGo (pl : Plan) (overpayments : ℕ → ℚ) : ℕ → ℕ → ℚ → List ScheduleEntry
  | 0, _, _ => []
  | fuel + 1, m, balance =>
    let payment := overpayments m
    let interest := balance * (pl.annual_rate / 12)
    let principal_paid := payment - interest
    let balance2 := balance - principal_paid
    let entry : ScheduleEntry :=
      ⟨m + 1, round2 payment, round2 principal_paid, round2 interest, round2 balance2⟩
    if balance2 ≤ 1/100 then [entry]
    else entry :: schedGo pl overpayments fuel (m + 1) balance2

/-- `Plan.amortization_schedule(balance, person, overpayments)`: replay the
supplied payment trace over at most `term_years*12` months (`plans.py` lines
72-95).  The `person` argument is unused by the Python body. -/
def Plan.amortization_schedule (pl : Plan) (balance : ℚ) (_p : Person)
    (overpayments : ℕ → ℚ) : List ScheduleEntry :=
  schedGo pl overpayments (pl.term_years * 12) 0 balance

/-- The exact running balance of the replay loop: `balRun 0` is the starting
balance and `balRun (m+1) = (1+r)·balRun m − payment m`, which is what
`balance -= payment - balance*r` computes. -/
def balRun (pl : Plan) (balance : ℚ) (overpayments : ℕ → ℚ) : ℕ → ℚ
  | 0 => balance
  | m + 1 => (1 + pl.annual_rate / 12) * balRun pl balance overpayments m - overpayments m

/-! ## The MILP built by `find_optimal_plan` (`plans.py` lines 298-444)

The Python code creates one `mip` variable per dictionary key; an
`Assignment` gives a value to every such variable (binaries are `Bool`).
`Feasible` below holds exactly when an assignment satisfies every constraint
the code adds with `model += ...`, so the solutions `model.optimize()` may
return are precisely the feasible assignments. -/

/-- A valuation of all decision variables of the model.  Functions are total
over `ℕ × FundingSource × Plan`; the constraints only mention the keys the
Python dictionaries actually hold. -/
structure Assignment where
  borrow : ℕ → FundingSource → Plan → ℚ
  used : ℕ → FundingSource → Plan → Bool
  active : FundingSource → Plan → Bool
  planBal : FundingSource → Plan → ℚ
  pay : ℕ → FundingSource → Plan → ℚ
  bal : ℕ → FundingSource → Plan → ℚ
  i1 : ℕ → FundingSource → Plan → Bool
  i2 : ℕ → FundingSource → Plan → Bool
  s1 : ℕ → FundingSource → Plan → ℚ
  s2 : ℕ → FundingSource → Plan → ℚ

/-- The rational value of a binary variable. -/
def binVal (b : Bool) : ℚ := if b then 1 else 0

/-- The `(source, plan)` pairs enumerated by the nested loops
`for source in srcs: for plan in source.plan_options(person)`. -/
def pairsOf (K : Constants) (p : Person) (srcs : List FundingSource) :
    List (FundingSource × Plan) :=
  srcs.flatMap fun s => (s.plan_options K p).map fun pl => (s, pl)

/-- `known_balance_sources`: the source of each pre-existing-loan entry
(`plans.py` line 347). -/
def kbSources (kb : List (ℚ × Plan × FundingSource)) : List FundingSource :=
  kb.map fun e => e.2.2

/-- `months`: `max(plan.term_years for s in sources for plan in s.plan_options(person)) * 12`
(`plans.py` line 318); `0` if there are no plans (where Python's `max` would
raise `ValueError`, guarded in `find_optimal_plan` below). -/
def maxTermMonths (K : Constants) (p : Person) (srcs : List FundingSource) : ℕ :=
  (((pairsOf K p srcs).map fun pr => pr.2.term_years).foldl max 0) * 12

/-- Bounds and linking of the per-year borrow variables for ordinary sources
(`plans.py` lines 325-333): `0 ≤ borrow ≤ limit` (variable bounds) and
`borrow ≤ limit · used`. -/
def BorrowConstraints (K : Constants) (p : Person) (srcs : List FundingSource)
    (a : Assignment) : Prop :=
  ∀ year < p.graduation_time, ∀ s ∈ srcs, ∀ pl ∈ s.plan_options K p,
    0 ≤ a.borrow year s pl ∧ a.borrow year s pl ≤ s.limit year p ∧
    a.borrow year s pl ≤ s.limit year p * binVal (a.used year s pl)

/-- Locked allocations for pre-existing loans (`plans.py` lines 335-344):
variable bounds `0 ≤ borrow ≤ known_balance`, `borrow = known_balance` at
year 0 and `borrow = 0` at later years. -/
def KnownBalanceConstraints (p : Person) (kb : List (ℚ × Plan × FundingSource))
    (a : Assignment) : Prop :=
  ∀ year < p.graduation_time, ∀ e ∈ kb,
    0 ≤ a.borrow year e.2.2 e.2.1 ∧ a.borrow year e.2.2 e.2.1 ≤ e.1 ∧
    (year = 0 → a.borrow year e.2.2 e.2.1 = e.1) ∧
    (year ≠ 0 → a.borrow year e.2.2 e.2.1 = 0)

/-- Exactly one active plan per source (`plans.py` lines 349-352):
`Σ_plan active[source, plan] = 1`. -/
def ActivePlanConstraints (K : Constants) (p : Person) (allSrcs : List FundingSource)
    (a : Assignment) : Prop :=
  ∀ s ∈ allSrcs, ((s.plan_options K p).map fun pl => binVal (a.active s pl)).sum = 1

/-- `active[source, plan] ≥ used[year, source, plan]` for every year
(`plans.py` lines 355-358). -/
def ActiveUsedLink (K : Constants) (p : Person) (allSrcs : List FundingSource)
    (a : Assignment) : Prop :=
  ∀ s ∈ allSrcs, ∀ year < p.graduation_time, ∀ pl ∈ s.plan_options K p,
    binVal (a.used year s pl) ≤ binVal (a.active s pl)

/-- Yearly borrowing meets the yearly need (`plans.py` lines 360-361):
`Σ_{source,plan} borrow[year,source,plan] = person.borrowed_amounts()[year]`. -/
def YearlyNeedConstraints (K : Constants) (p : Person) (srcs : List FundingSource)
    (a : Assignment) : Prop :=
  ∀ year < p.graduation_time,
    (srcs.map fun s => ((s.plan_options K p).map fun pl => a.borrow year s pl).sum).sum =
      p.borrowed_amounts.getD year 0

/-- Aggregate principal per `(source, plan)` (`plans.py` lines 364-374):
the variable's default lower bound `0` plus
`plan_balance = Σ_year principal(borrow[year], year)`. -/
def PlanBalanceConstraints (K : Constants) (p : Person) (allSrcs : List FundingSource)
    (a : Assignment) : Prop :=
  ∀ s ∈ allSrcs, ∀ pl ∈ s.plan_options K p,
    0 ≤ a.planBal s pl ∧
    a.planBal s pl =
      ((List.range p.graduation_time).map fun year =>
        s.principal K (a.borrow year s pl) year p).sum

/-- Balance dynamics per `(source, plan)` (`plans.py` lines 377-390):
variable bounds `payment ≥ 0`, `balance ≥ 0` for all months of the term;
`balance[0] = (1+r)·plan_balance − payment[0]`; terminal
`balance[term·12−1] = 0`; and for `m ≥ 1` the constraints
`balance[m] ≥ 0` and `balance[m] = (1+r)·balance[m−1] − payment[m]`. -/
def BalanceRecurrence (K : Constants) (p : Person) (allSrcs : List FundingSource)
    (a : Assignment) : Prop :=
  ∀ s ∈ allSrcs, ∀ pl ∈ s.plan_options K p,
    (∀ m < pl.term_years * 12, 0 ≤ a.pay m s pl ∧ 0 ≤ a.bal m s pl) ∧
    a.bal 0 s pl = (1 + pl.annual_rate / 12) * a.planBal s pl - a.pay 0 s pl ∧
    a.bal (pl.term_years * 12 - 1) s pl = 0 ∧
    (∀ m, 1 ≤ m → m < pl.term_years * 12 →
      0 ≤ a.bal m s pl ∧
      a.bal m s pl = (1 + pl.annual_rate / 12) * a.bal (m - 1) s pl - a.pay m s pl)

/-- The big-M payment window per `(month, source, plan)` (`plans.py` lines
393-416), with `mpo` the truthy value of `person.minimum_payment_only`:
slacks `s1, s2 ∈ [-1e6, 1e6·(1−mpo)]` linked to indicator binaries `i1, i2`
with `i1 + i2 = 1`, `payment = min_formula + s1 = full + s2`,
`payment ≤ full` and `payment ≥ 0`, where `min_formula` is the contractual
minimum `_m·plan_balance + _b` and `full` is the full-payoff amount
`(previous balance)·(1+r)`. -/
def PaymentWindowConstraints (K : Constants) (p : Person) (allSrcs : List FundingSource)
    (mpo : ℚ) (a : Assignment) : Prop :=
  ∀ s ∈ allSrcs, ∀ pl ∈ s.plan_options K p, ∀ m < pl.term_years * 12,
    (-1000000 ≤ a.s1 m s pl ∧ a.s1 m s pl ≤ 1000000 * (1 - mpo)) ∧
    (-1000000 ≤ a.s2 m s pl ∧ a.s2 m s pl ≤ 1000000 * (1 - mpo)) ∧
    1000000 * -(binVal (a.i1 m s pl)) ≤ a.s1 m s pl ∧
    a.s1 m s pl ≤ 1000000 * binVal (a.i1 m s pl) ∧
    1000000 * -(binVal (a.i2 m s pl)) ≤ a.s2 m s pl ∧
    a.s2 m s pl ≤ 1000000 * binVal (a.i2 m s pl) ∧
    binVal (a.i1 m s pl) + binVal (a.i2 m s pl) = 1 ∧
    a.pay m s pl = (pl.m_ m p * a.planBal s pl + pl.b_ m p) + a.s1 m s pl ∧
    a.pay m s pl =
      (if m = 0 then a.planBal s pl else a.bal (m - 1) s pl) * (1 + pl.annual_rate / 12) +
        a.s2 m s pl ∧
    a.pay m s pl ≤
      (if m = 0 then a.planBal s pl else a.bal (m - 1) s pl) * (1 + pl.annual_rate / 12) ∧
    0 ≤ a.pay m s pl

/-- Monthly affordability (`plans.py` lines 419-421): for every month up to
the longest term among the ordinary sources' plans, the total payment across
all `(source, plan)` pairs whose term covers that month is at most
`max_dti · income(month // 12) / 12`. -/
def DTIConstraints (K : Constants) (p : Person) (srcs : List FundingSource)
    (allSrcs : List FundingSource) (a : Assignment) : Prop :=
  ∀ month < maxTermMonths K p srcs,
    ((pairsOf K p allSrcs).map fun pr =>
      if month < pr.2.term_years * 12 then a.pay month pr.1 pr.2 else 0).sum ≤
      p.max_dti * p.income_at_year ((month / 12 : ℕ) : ℤ) / 12

/-- An assignment satisfies every constraint `find_optimal_plan` adds to the
model (`plans.py` lines 298-421), for the given person, ordinary sources
`srcs`, pre-existing-loan entries `kb` (the content of
`person.existing_loans[0]`), and truthy value `mpo` of the person's
`minimum_payment_only` attribute. -/
def Feasible (K : Constants) (p : Person) (srcs : List FundingSource)
    (kb : List (ℚ × Plan × FundingSource)) (mpo : ℚ) (a : Assignment) : Prop :=
  BorrowConstraints K p srcs a ∧
  KnownBalanceConstraints p kb a ∧
  ActivePlanConstraints K p (srcs ++ kbSources kb) a ∧
  ActiveUsedLink K p (srcs ++ kbSources kb) a ∧
  YearlyNeedConstraints K p srcs a ∧
  PlanBalanceConstraints K p (srcs ++ kbSources kb) a ∧
  BalanceRecurrence K p (srcs ++ kbSources kb) a ∧
  PaymentWindowConstraints K p (srcs ++ kbSources kb) mpo a ∧
  DTIConstraints K p srcs (srcs ++ kbSources kb) a

/-! ## `find_optimal_plan` as a function (`plans.py` lines 298-444)

The function is modelled up to the exceptions Python raises while building
the model, with the backend solve abstracted as a `solver : Option Assignment`
argument: `none` models `model.num_solutions == 0` after `model.optimize()`,
`some a` models the solver returning the solution `a`. -/

/-- The Python exceptions `find_optimal_plan` can raise while building the
model. -/
inductive PyErr where
  /-- `person.existing_loans[0]` on an empty container (line 314). -/
  | indexError
  /-- `max()` of an empty generator when no source offers a plan (line 318). -/
  | valueError
  /-- A missing dictionary key: `balance[...]` at line 384/385 when a plan's
  term is zero months, or `used[...]` at line 358 when a pre-existing-loan
  source offers a plan that has no per-year variables. -/
  | keyError
  /-- A division by zero while evaluating `plan._m(month, person)` /
  `plan._b(month, person)` at line 394: the annuity denominator
  `(1+r)**n − 1` of `Plan._m` at a zero rate, the graduated plan's
  `1/pv` or its in-loop `(1+r)**m` power, or `(1+g)**(-1)` inside
  `discretionary_income` at month 0 when `1+g = 0`. -/
  | zeroDivisionError
  /-- `person.minimum_payment_only` when the attribute was never set
  (line 399). -/
  | attributeError
deriving DecidableEq

/-- The condition under which Python raises `ZeroDivisionError` while
evaluating `plan._m(month, person)` and `plan._b(month, person)` at line
394.  All of these conditions are month-independent or fire at month 0,
the first month the loop evaluates, so they characterize the pair's whole
scan: `Plan._m`'s annuity denominator `(1+r)^n − 1` is zero
(`StandardPlan`/`ExtendedPlan`, lines 35-37); `GraduatedPlan._m` hits a
zero power `(1+r)^m` in its present-value loop (possible once `m ≥ 1`,
i.e. two or more months) or a zero present value in `1/pv` (lines 116-123);
the income-driven plans (PAYE/REPAYE/SAVE `_b`/`_m`, lines 141-144 and
152-156) evaluate `discretionary_income((0-1)//12) = discretionary_income(-1)`,
whose `(1+g)**(-1)` raises when `1+g = 0`; `ICRPlan._m` (lines 163-169) has
both that discretionary part and a 12-year standard coefficient with
denominator `(1+r)^144 − 1`. -/
def zeroDivThrows (pl : Plan) (p : Person) : Prop :=
  ((pl.kind = PlanKind.standard ∨ pl.kind = PlanKind.extended) ∧
    (1 + pl.annual_rate / 12) ^ (pl.term_years * 12) - 1 = 0) ∨
  (pl.kind = PlanKind.graduated ∧
    ((1 + pl.annual_rate / 12 = 0 ∧ 2 ≤ pl.term_years * 12) ∨ pl.gradPv = 0)) ∨
  ((pl.kind = PlanKind.paye ∨ pl.kind = PlanKind.repaye ∨ pl.kind = PlanKind.save) ∧
    1 + p.income_appreciation = 0) ∨
  (pl.kind = PlanKind.icr ∧
    (1 + p.income_appreciation = 0 ∨
      (1 + pl.annual_rate / 12) ^ (12 * 12) - 1 = 0))

instance (pl : Plan) (p : Person) : Decidable (zeroDivThrows pl p) := by
  unfold zeroDivThrows; infer_instance

/-- Line 358 (`used[(year, source, plan)]`) only finds its key for a
pre-existing-loan source if that source also appears in `sources`, or every
plan it offers occurs among the known-balance entries for it.  (Vacuously
true when there are no enrollment years, since the loop is over years.) -/
def kbUsedOK (K : Constants) (p : Person) (srcs : List FundingSource)
    (kb : List (ℚ × Plan × FundingSource)) : Prop :=
  p.graduation_time = 0 ∨
    ∀ s ∈ kbSources kb, s ∈ srcs ∨
      ∀ pl ∈ s.plan_options K p, (pl, s) ∈ kb.map fun e => (e.2.1, e.2.2)

instance (K : Constants) (p : Person) (srcs : List FundingSource)
    (kb : List (ℚ × Plan × FundingSource)) : Decidable (kbUsedOK K p srcs kb) := by
  unfold kbUsedOK; infer_instance

/-- The monthly-constraint loop of lines 377-416 walks the `(source, plan)`
pairs in order; for each pair it first indexes `balance[(0, ...)]` and
`balance[(term*12 - 1, ...)]` (a `KeyError` when the term is zero months,
since no balance variables were created), then at month 0 evaluates the
minimum-payment formula `plan._m(month, person) * plan_balance + plan._b(...)`
(a `ZeroDivisionError` exactly under `zeroDivThrows`, line 394) and only
then reads `person.minimum_payment_only` (an `AttributeError` when the
attribute is unset, line 399). -/
def scanPairs (p : Person) (flag : Option ℚ) :
    List (FundingSource × Plan) → Except PyErr Unit
  | [] => Except.ok ()
  | pr :: rest =>
    if pr.2.term_years = 0 then Except.error PyErr.keyError
    else if zeroDivThrows pr.2 p then Except.error PyErr.zeroDivisionError
    else
      match flag with
      | none => Except.error PyErr.attributeError
      | some v => scanPairs p (some v) rest

/-- The value returned on success (`plans.py` lines 432-444): for each
enrollment year the `(amount, plan, source)` triples with allocation above
the `1e-3` threshold, and for each such `(source, plan)` its payment trace. -/
structure FOPResult where
  allocation : ℕ → List (ℚ × Plan × FundingSource)
  overpayments : List ((FundingSource × Plan) × (ℕ → ℚ))

/-- Lines 432-441: collect nonzero allocations (`amt > 1e-3`) per year in
dictionary iteration order, and the payment trace of every pair that carries
a nonzero allocation in some year. -/
def buildResult (K : Constants) (p : Person) (srcs : List FundingSource)
    (kb : List (ℚ × Plan × FundingSource)) (a : Assignment) : FOPResult :=
  let allPairs := pairsOf K p srcs ++ kb.map fun e => (e.2.2, e.2.1)
  { allocation := fun year =>
      if year < p.graduation_time then
        allPairs.filterMap fun pr =>
          if 1/1000 < a.borrow year pr.1 pr.2 then some (a.borrow year pr.1 pr.2, pr.2, pr.1)
          else none
      else []
    overpayments :=
      allPairs.filterMap fun pr =>
        if ∃ year < p.graduation_time, 1/1000 < a.borrow year pr.1 pr.2 then
          some (pr, fun month => a.pay month pr.1 pr.2)
        else none }

/-- `find_optimal_plan(person, sources)` (`plans.py` lines 298-444).  The
steps, in the source's evaluation order: read `person.existing_loans[0]`
(`IndexError` on the empty default); take the maximum plan term over the
ordinary sources (`ValueError` from `max` when no source offers a plan);
link `used` variables for pre-existing-loan sources (`KeyError` when their
plan options have no per-year variables); walk the monthly constraints per
`(source, plan)` pair (`KeyError` for a zero-month term, `ZeroDivisionError`
when the pair's minimum-payment formula divides by zero, `AttributeError`
when `person.minimum_payment_only` is unset); then solve.  If the solver
finds no solution the function returns `(None, None)`, modelled as
`Except.ok none`; otherwise it returns the extracted allocation and payment
traces. -/
def find_optimal_plan (solver : Option Assignment) (K : Constants) (p : Person)
    (srcs : List FundingSource) : Except PyErr (Option FOPResult) :=
  match p.existing_loans with
  | [] => Except.error PyErr.indexError
  | kb :: _ =>
    if pairsOf K p srcs = [] then Except.error PyErr.valueError
    else if ¬ kbUsedOK K p srcs kb then Except.error PyErr.keyError
    else
      match scanPairs p p.minimum_payment_only (pairsOf K p (srcs ++ kbSources kb)) with
      | Except.error e => Except.error e
      | Except.ok _ =>
        match solver with
        | none => Except.ok none
        | some a => Except.ok (some (buildResult K p srcs kb a))

/-! ## Decidability of the feasibility predicate on concrete inputs -/

instance (K : Constants) (p : Person) (srcs : List FundingSource) (a : Assignment) :
    Decidable (BorrowConstraints K p srcs a) := by
  unfold BorrowConstraints; infer_instance

instance (p : Person) (kb : List (ℚ × Plan × FundingSource)) (a : Assignment) :
    Decidable (KnownBalanceConstraints p kb a) := by
  unfold KnownBalanceConstraints; infer_instance

instance (K : Constants) (p : Person) (allSrcs : List FundingSource) (a : Assignment) :
    Decidable (ActivePlanConstraints K p allSrcs a) := by
  unfold ActivePlanConstraints; infer_instance

instance (K : Constants) (p : Person) (allSrcs : List FundingSource) (a : Assignment) :
    Decidable (ActiveUsedLink K p allSrcs a) := by
  unfold ActiveUsedLink; infer_instance

instance (K : Constants) (p : Person) (srcs : List FundingSource) (a : Assignment) :
    Decidable (YearlyNeedConstraints K p srcs a) := by
  unfold YearlyNeedConstraints; infer_instance

instance (K : Constants) (p : Person) (allSrcs : List FundingSource) (a : Assignment) :
    Decidable (PlanBalanceConstraints K p allSrcs a) := by
  unfold PlanBalanceConstraints; infer_instance

instance (K : Constants) (p : Person) (allSrcs : List FundingSource) (a : Assignment) :
    Decidable (BalanceRecurrence K p allSrcs a) := by
  unfold BalanceRecurrence; infer_instance

instance (K : Constants) (p : Person) (allSrcs : List FundingSource) (mpo : ℚ)
    (a : Assignment) : Decidable (PaymentWindowConstraints K p allSrcs mpo a) := by
  unfold PaymentWindowConstraints; infer_instance

instance (K : Constants) (p : Person) (srcs allSrcs : List FundingSource) (a : Assignment) :
    Decidable (DTIConstraints K p srcs allSrcs a) := by
  unfold DTIConstraints; infer_instance

instance (K : Constants) (p : Person) (srcs : List FundingSource)
    (kb : List (ℚ × Plan × FundingSource)) (mpo : ℚ) (a : Assignment) :
    Decidable (Feasible K p srcs kb mpo a) := by
  unfold Feasible; infer_instance

/-! ## Concrete scenarios used by the witness statements -/

/-- Arbitrary values for the five `constants.py` rates (the scenarios below
only use sources whose behaviour does not depend on them). -/
def kW : Constants := ⟨1/100, 5/100, 6/100, 8/100, 4/100⟩

/-- A one-year standard plan at 12% APR (monthly rate 1%). -/
def planW : Plan := mkStandardPlan (12/100) 1

/-- A user-defined (pre-payable, subsidized) source offering only `planW`. -/
def srcW : FundingSource := FundingSource.userDefinedSource "w" planW (12/100) true

/-- A borrower with zero borrowing need (contribution covers attendance),
one year in school, no pre-existing loans (`existing_loans[0]` present and
empty, as the UI passes `{0: []}`), and the minimum-payment-only attribute
set to `0`. -/
def personW : Person :=
  { family_income := 0
    subsidized_loan_eligible := false
    starting_income := 0
    annual_personal_contribution := 100
    annual_attendance_cost := 100
    graduation_time := 1
    income_appreciation := 0
    existing_loans := [[]]
    minimum_payment_only := some 0 }

/-- The all-zero solution: borrow nothing, pay nothing; `planW` is marked
active and the `i1` indicator is picked each month. -/
def assignW : Assignment :=
  { borrow := fun _ _ _ => 0
    used := fun _ _ _ => false
    active := fun _ _ => true
    planBal := fun _ _ => 0
    pay := fun _ _ _ => 0
    bal := fun _ _ _ => 0
    i1 := fun _ _ _ => true
    i2 := fun _ _ _ => false
    s1 := fun _ _ _ => 0
    s2 := fun _ _ _ => 0 }

/-- A one-year income-driven (REPAYE) plan at 12% APR. -/
def planX : Plan := mkREPAYEPlan (12/100) 1

/-- A user-defined source offering only the income-driven `planX`. -/
def srcX : FundingSource := FundingSource.userDefinedSource "x" planX (12/100) true

/-- A borrower with zero need, constant income `20787` (discretionary income
`20787 − 1.5·13850 = 12`), and the minimum-payment-only flag set to `1`. -/
def personX : Person :=
  { family_income := 0
    subsidized_loan_eligible := false
    starting_income := 20787
    annual_personal_contribution := 0
    annual_attendance_cost := 0
    graduation_time := 1
    income_appreciation := 0
    existing_loans := [[]]
    minimum_payment_only := some 1 }

/-- The all-zero solution for `personX`/`srcX`: since nothing is borrowed the
plan balance is `0`, the full-payoff amount is `0` every month, and the slack
`s1 = −1/10` absorbs the positive income-driven contractual minimum. -/
def assignX : Assignment :=
  { assignW with s1 := fun _ _ _ => -(1/10) }

/-- A borrower with discretionary income `0.12` (income `20775.12`), used to
evaluate the `ICRPlan` payment rule where the 20% income amount undercuts
the 12-year standard coefficient. -/
def personC7 : Person :=
  { family_income := 0
    subsidized_loan_eligible := false
    starting_income := 2077512/100
    annual_personal_contribution := 0
    annual_attendance_cost := 0
    graduation_time := 1
    income_appreciation := 0
    existing_loans := [[]]
    minimum_payment_only := some 0 }

/-- A freshly constructed borrower left with the dataclass defaults:
`existing_loans = []` and no `minimum_payment_only` attribute. -/
def personC9 : Person :=
  { family_income := 0
    subsidized_loan_eligible := false
    starting_income := 0
    annual_personal_contribution := 0
    annual_attendance_cost := 100
    graduation_time := 1 }

lemma binVal_nonneg (b : Bool) : 0 ≤ binVal b := by
  cases b <;> norm_num [binVal]

lemma binVal_true_eq : binVal true = 1 := rfl

lemma binVal_false_eq : binVal false = 0 := rfl

lemma borrowed_amounts_getD {p : Person} {year : ℕ} (hy : year < p.graduation_time) :
    p.borrowed_amounts.getD year 0 =
      p.annual_attendance_cost - p.annual_personal_contribution := by
  simp [Person.borrowed_amounts, List.getD, hy]

lemma used_true_of_borrow_ne_zero {K : Constants} {p : Person} {srcs : List FundingSource}
    {a : Assignment} (hB : BorrowConstraints K p srcs a) {year : ℕ} {s : FundingSource}
    {pl : Plan} (hy : year < p.graduation_time) (hs : s ∈ srcs)
    (hpl : pl ∈ s.plan_options K p) (hne : a.borrow year s pl ≠ 0) :
    a.used year s pl = true := by
  cases huse : a.used year s pl
  · obtain ⟨h0, _, hlink⟩ := hB year hy s hs pl hpl
    rw [huse, binVal_false_eq, mul_zero] at hlink
    exact absurd (le_antisymm hlink h0) hne
  · rfl

lemma active_true_of_used_true {K : Constants} {p : Person} {allSrcs : List FundingSource}
    {a : Assignment} (hL : ActiveUsedLink K p allSrcs a) {s : FundingSource} {year : ℕ}
    {pl : Plan} (hs : s ∈ allSrcs) (hy : year < p.graduation_time)
    (hpl : pl ∈ s.plan_options K p) (hu : a.used year s pl = true) :
    a.active s pl = true := by
  have hle := hL s hs year hy pl hpl
  rw [hu, binVal_true_eq] at hle
  cases hact : a.active s pl
  · rw [hact, binVal_false_eq] at hle; norm_num at hle
  · rfl

lemma active_unique {K : Constants} {p : Person} {allSrcs : List FundingSource}
    {a : Assignment} (hA : ActivePlanConstraints K p allSrcs a) {s : FundingSource}
    (hs : s ∈ allSrcs) {pl1 pl2 : Plan} (h1 : pl1 ∈ s.plan_options K p)
    (h2 : pl2 ∈ s.plan_options K p) (hne : pl1 ≠ pl2)
    (ha1 : a.active s pl1 = true) (ha2 : a.active s pl2 = true) : False := by
  have hsum := hA s hs
  have hperm : (s.plan_options K p).Perm (pl1 :: (s.plan_options K p).erase pl1) :=
    List.perm_cons_erase h1
  have h2e : pl2 ∈ (s.plan_options K p).erase pl1 :=
    (List.mem_erase_of_ne (Ne.symm hne)).mpr h2
  have hmapsum : ((s.plan_options K p).map fun pl => binVal (a.active s pl)).sum =
      binVal (a.active s pl1) +
        (((s.plan_options K p).erase pl1).map fun pl => binVal (a.active s pl)).sum := by
    rw [List.Perm.sum_eq (hperm.map fun pl => binVal (a.active s pl))]
    simp
  have hnn : ∀ x ∈ ((s.plan_options K p).erase pl1).map fun pl => binVal (a.active s pl),
      0 ≤ x := by
    intro x hxm
    obtain ⟨pl', _, rfl⟩ := List.mem_map.mp hxm
    exact binVal_nonneg _
  have hx := List.single_le_sum hnn _
    (List.mem_map_of_mem (fun pl => binVal (a.active s pl)) h2e)
  simp only [ha2, binVal_true_eq] at hx
  rw [hmapsum, ha1, binVal_true_eq] at hsum
  linarith

/-- Claim C1: in `find_optimal_plan`, for every `(source, plan)` pair of the
model (in particular every selected one), the feasibility constraints force
the aggregate principal to equal the summed per-year principal, the month-0
balance to equal `(1+r)·principal − payment[0]`, every later month of the
term to satisfy `balance[t] ≥ 0` and
`balance[t] = (1+r)·balance[t−1] − payment[t]`, and the balance at month
`term_years·12 − 1` to be zero, so any feasible solution fully retires each
selected plan within its term. -/
theorem claim_c1_balance_recurrence (K : Constants) (p : Person)
    (srcs : List FundingSource) (kb : List (ℚ × Plan × FundingSource)) (mpo : ℚ)
    (a : Assignment) (s : FundingSource) (pl : Plan)
    (hF : Feasible K p srcs kb mpo a)
    (hs : s ∈ srcs ++ kbSources kb) (hpl : pl ∈ s.plan_options K p) :
    a.planBal s pl =
      ((List.range p.graduation_time).map fun year =>
        s.principal K (a.borrow year s pl) year p).sum ∧
    a.bal 0 s pl = (1 + pl.annual_rate / 12) * a.planBal s pl - a.pay 0 s pl ∧
    (∀ m, 0 < m → m < pl.term_years * 12 →
      0 ≤ a.bal m s pl ∧
      a.bal m s pl =
        (1 + pl.annual_rate / 12) * a.bal (m - 1) s pl - a.pay m s pl) ∧
    a.bal (pl.term_years * 12 - 1) s pl = 0 := by
  obtain ⟨_, _, _, _, _, hPB, hBR, _, _⟩ := hF
  obtain ⟨_, hb0, hterm, hrec⟩ := hBR s hs pl hpl
  exact ⟨(hPB s hs pl hpl).2, hb0, hrec, hterm⟩

/-- Witness for C1: the balance constraints extracted at the concrete
feasible scenario `W`. -/
theorem claim_c1_witness :
    assignW.planBal srcW planW =
      ((List.range personW.graduation_time).map fun year =>
        srcW.principal kW (assignW.borrow year srcW planW) year personW).sum ∧
    assignW.bal 0 srcW planW =
      (1 + planW.annual_rate / 12) * assignW.planBal srcW planW -
        assignW.pay 0 srcW planW ∧
    (∀ m, 0 < m → m < planW.term_years * 12 →
      0 ≤ assignW.bal m srcW planW ∧
      assignW.bal m srcW planW =
        (1 + planW.annual_rate / 12) * assignW.bal (m - 1) srcW planW -
          assignW.pay m srcW planW) ∧
    assignW.bal (planW.term_years * 12 - 1) srcW planW = 0 :=
  claim_c1_balance_recurrence kW personW [srcW] [] 0 assignW srcW planW
    (of_decide_eq_true (by with_unfolding_all rfl))
    (of_decide_eq_true (by with_unfolding_all rfl))
    (of_decide_eq_true (by with_unfolding_all rfl))

/-- Claim C2: in `find_optimal_plan`, for every enrollment year the model
constrains the total borrowed across all ordinary sources and their plan
options to equal `person.borrowed_amounts()[year]`, which is the constant
yearly need `annual_attendance_cost − annual_personal_contribution`. -/
theorem claim_c2_yearly_borrowing (K : Constants) (p : Person)
    (srcs : List FundingSource) (kb : List (ℚ × Plan × FundingSource)) (mpo : ℚ)
    (a : Assignment) (year : ℕ)
    (hF : Feasible K p srcs kb mpo a) (hy : year < p.graduation_time) :
    (srcs.map fun s => ((s.plan_options K p).map fun pl => a.borrow year s pl).sum).sum =
      p.borrowed_amounts.getD year 0 ∧
    (srcs.map fun s => ((s.plan_options K p).map fun pl => a.borrow year s pl).sum).sum =
      p.annual_attendance_cost - p.annual_personal_contribution := by
  obtain ⟨_, _, _, _, hY, _, _, _, _⟩ := hF
  have h := hY year hy
  exact ⟨h, h.trans (borrowed_amounts_getD hy)⟩

/-- Witness for C2: the yearly-need constraint extracted at scenario `W`
(need `0`, allocation all zero). -/
theorem claim_c2_witness :
    ([srcW].map fun s =>
      ((s.plan_options kW personW).map fun pl => assignW.borrow 0 s pl).sum).sum =
      personW.borrowed_amounts.getD 0 0 ∧
    ([srcW].map fun s =>
      ((s.plan_options kW personW).map fun pl => assignW.borrow 0 s pl).sum).sum =
      personW.annual_attendance_cost - personW.annual_personal_contribution :=
  claim_c2_yearly_borrowing kW personW [srcW] [] 0 assignW 0
    (of_decide_eq_true (by with_unfolding_all rfl))
    (of_decide_eq_true (by with_unfolding_all rfl))

/-- Claim C3: in `find_optimal_plan`, every funding source (ordinary or
carrying a pre-existing loan) gets `Σ_plan active[source, plan] = 1` and
`active[source, plan] ≥ used[year, source, plan]` for every enrollment year;
consequently no two distinct plans of one source can both be flagged used,
and for ordinary sources no two distinct plans can both carry nonzero
borrowing in any feasible solution.  A pre-existing-loan source
(`UserDefinedSource`) offers exactly one fixed plan, so for it the
borrowing-exclusivity statement holds trivially: its plan options admit no
two distinct plans at all. -/
theorem claim_c3_source_plan_exclusivity (K : Constants) (p : Person)
    (srcs : List FundingSource) (kb : List (ℚ × Plan × FundingSource)) (mpo : ℚ)
    (a : Assignment) (s : FundingSource)
    (hF : Feasible K p srcs kb mpo a) (hs : s ∈ srcs ++ kbSources kb) :
    ((s.plan_options K p).map fun pl => binVal (a.active s pl)).sum = 1 ∧
    (∀ year < p.graduation_time, ∀ pl ∈ s.plan_options K p,
      binVal (a.used year s pl) ≤ binVal (a.active s pl)) ∧
    (∀ pl1 ∈ s.plan_options K p, ∀ pl2 ∈ s.plan_options K p, pl1 ≠ pl2 →
      ¬ ((∃ year < p.graduation_time, a.used year s pl1 = true) ∧
        (∃ year < p.graduation_time, a.used year s pl2 = true))) ∧
    (s ∈ srcs →
      ∀ pl1 ∈ s.plan_options K p, ∀ pl2 ∈ s.plan_options K p, pl1 ≠ pl2 →
      ¬ ((∃ year < p.graduation_time, a.borrow year s pl1 ≠ 0) ∧
        (∃ year < p.graduation_time, a.borrow year s pl2 ≠ 0))) ∧
    ((s.plan_options K p).length ≤ 1 →
      ∀ pl1 ∈ s.plan_options K p, ∀ pl2 ∈ s.plan_options K p, pl1 = pl2) := by
  obtain ⟨hB, _, hA, hL, _, _, _, _, _⟩ := hF
  refine ⟨hA s hs, fun year hy pl hpl => hL s hs year hy pl hpl, ?_, ?_, ?_⟩
  · rintro pl1 h1 pl2 h2 hne ⟨⟨y1, hy1, hu1⟩, ⟨y2, hy2, hu2⟩⟩
    exact active_unique hA hs h1 h2 hne
      (active_true_of_used_true hL hs hy1 h1 hu1)
      (active_true_of_used_true hL hs hy2 h2 hu2)
  · rintro hssrc pl1 h1 pl2 h2 hne ⟨⟨y1, hy1, hb1⟩, ⟨y2, hy2, hb2⟩⟩
    exact active_unique hA hs h1 h2 hne
      (active_true_of_used_true hL hs hy1 h1
        (used_true_of_borrow_ne_zero hB hy1 hssrc h1 hb1))
      (active_true_of_used_true hL hs hy2 h2
        (used_true_of_borrow_ne_zero hB hy2 hssrc h2 hb2))
  · intro hlen pl1 h1 pl2 h2
    cases hopt : s.plan_options K p with
    | nil =>
      rw [hopt] at h1
      cases h1
    | cons x t =>
      rw [hopt] at hlen h1 h2
      have ht : t = [] := by
        simp only [List.length_cons] at hlen
        exact List.length_eq_zero.mp (by omega)
      subst ht
      rw [List.mem_singleton.mp h1, List.mem_singleton.mp h2]

/-- Witness for C3: the exclusivity constraints extracted at scenario `W`. -/
theorem claim_c3_witness :
    ((srcW.plan_options kW personW).map fun pl => binVal (assignW.active srcW pl)).sum = 1 ∧
    (∀ year < personW.graduation_time, ∀ pl ∈ srcW.plan_options kW personW,
      binVal (assignW.used year srcW pl) ≤ binVal (assignW.active srcW pl)) ∧
    (∀ pl1 ∈ srcW.plan_options kW personW, ∀ pl2 ∈ srcW.plan_options kW personW,
      pl1 ≠ pl2 →
      ¬ ((∃ year < personW.graduation_time, assignW.used year srcW pl1 = true) ∧
        (∃ year < personW.graduation_time, assignW.used year srcW pl2 = true))) ∧
    (srcW ∈ [srcW] →
      ∀ pl1 ∈ srcW.plan_options kW personW, ∀ pl2 ∈ srcW.plan_options kW personW,
      pl1 ≠ pl2 →
      ¬ ((∃ year < personW.graduation_time, assignW.borrow year srcW pl1 ≠ 0) ∧
        (∃ year < personW.graduation_time, assignW.borrow year srcW pl2 ≠ 0))) ∧
    ((srcW.plan_options kW personW).length ≤ 1 →
      ∀ pl1 ∈ srcW.plan_options kW personW, ∀ pl2 ∈ srcW.plan_options kW personW,
      pl1 = pl2) :=
  claim_c3_source_plan_exclusivity kW personW [srcW] [] 0 assignW srcW
    (of_decide_eq_true (by with_unfolding_all rfl))
    (of_decide_eq_true (by with_unfolding_all rfl))

/-- Claim C6 (amended): with the minimum-payment-only flag set to `1`, the
big-M window forces every month's payment to equal the smaller of the
contractual minimum `m·plan_balance + b` and the full-payoff amount
`(previous balance)·(1+r)` — so no overpayment above (and no other
deviation from) the contractual minimum is feasible, but when the
full-payoff amount is below the contractual minimum the payment equals the
full-payoff amount rather than the minimum. -/
theorem claim_c6_min_payment_only (K : Constants) (p : Person)
    (srcs : List FundingSource) (kb : List (ℚ × Plan × FundingSource))
    (a : Assignment) (s : FundingSource) (pl : Plan) (m : ℕ)
    (hF : Feasible K p srcs kb 1 a)
    (hs : s ∈ srcs ++ kbSources kb) (hpl : pl ∈ s.plan_options K p)
    (hm : m < pl.term_years * 12) :
    a.pay m s pl =
      min (pl.m_ m p * a.planBal s pl + pl.b_ m p)
        ((if m = 0 then a.planBal s pl else a.bal (m - 1) s pl) *
          (1 + pl.annual_rate / 12)) := by
  obtain ⟨_, _, _, _, _, _, _, hPW, _⟩ := hF
  obtain ⟨⟨hs1lo, hs1hi⟩, ⟨hs2lo, hs2hi⟩, hi1lo, hi1hi, hi2lo, hi2hi, hsum, hpay1, hpay2,
    hple, hpge⟩ := hPW s hs pl hpl m hm
  have hz : (1000000 : ℚ) * (1 - 1) = 0 := by norm_num
  rw [hz] at hs1hi hs2hi
  cases hi1 : a.i1 m s pl
  · -- the contractual-minimum indicator is selected: `s1 = 0`
    rw [hi1, binVal_false_eq] at hi1lo
    have hs1z : a.s1 m s pl = 0 := le_antisymm hs1hi (by linarith)
    have hpayA : a.pay m s pl = pl.m_ m p * a.planBal s pl + pl.b_ m p := by
      rw [hpay1, hs1z, add_zero]
    rw [min_eq_left (by linarith [hple, hpayA] : pl.m_ m p * a.planBal s pl + pl.b_ m p ≤
      (if m = 0 then a.planBal s pl else a.bal (m - 1) s pl) * (1 + pl.annual_rate / 12))]
    exact hpayA
  · -- the full-payoff indicator is selected: `s2 = 0`
    cases hi2 : a.i2 m s pl
    · rw [hi2, binVal_false_eq] at hi2lo
      have hs2z : a.s2 m s pl = 0 := le_antisymm hs2hi (by linarith)
      have hpayB : a.pay m s pl =
          (if m = 0 then a.planBal s pl else a.bal (m - 1) s pl) *
            (1 + pl.annual_rate / 12) := by
        rw [hpay2, hs2z, add_zero]
      rw [min_eq_right (by linarith [hpay1, hs1hi, hpayB] :
        (if m = 0 then a.planBal s pl else a.bal (m - 1) s pl) *
          (1 + pl.annual_rate / 12) ≤ pl.m_ m p * a.planBal s pl + pl.b_ m p)]
      exact hpayB
    · exfalso
      rw [hi1, hi2, binVal_true_eq] at hsum
      norm_num at hsum


/-- Counterexample to C6 as stated: with the minimum-payment-only flag set
to `1`, scenario `X` is a fully feasible solution of the model in which the
month-0 payment of the (unused, zero-balance) income-driven plan is `0`,
strictly different from its contractual minimum `m·plan_balance + b = 1/10`:
the window does not force equality with the minimum-required payment. -/
theorem claim_c6_counterexample :
    personX.minimum_payment_only = some 1 ∧
    Feasible kW personX [srcX] [] 1 assignX ∧
    assignX.pay 0 srcX planX ≠
      planX.m_ 0 personX * assignX.planBal srcX planX + planX.b_ 0 personX :=
  of_decide_eq_true (by with_unfolding_all rfl)

/-- Witness for C6 (amended) at scenario `X`, month 0: the payment equals
the minimum of the contractual minimum (`1/10`) and the full-payoff amount
(`0`). -/
theorem claim_c6_witness :
    assignX.pay 0 srcX planX =
      min (planX.m_ 0 personX * assignX.planBal srcX planX + planX.b_ 0 personX)
        ((if 0 = 0 then assignX.planBal srcX planX else assignX.bal (0 - 1) srcX planX) *
          (1 + planX.annual_rate / 12)) :=
  claim_c6_min_payment_only kW personX [srcX] [] assignX srcX planX 0
    (of_decide_eq_true (by with_unfolding_all rfl))
    (of_decide_eq_true (by with_unfolding_all rfl))
    (of_decide_eq_true (by with_unfolding_all rfl))
    (of_decide_eq_true (by with_unfolding_all rfl))

/-- Claim C10: for every person left with the default `existing_loans = []`,
`find_optimal_plan` raises `IndexError` at `person.existing_loans[0]`
(the first fallible step, before any model variable or constraint exists),
whatever the sources and whatever the solver would have answered. -/
theorem claim_c10_index_error (solver : Option Assignment) (K : Constants)
    (p : Person) (srcs : List FundingSource)
    (hel : p.existing_loans = []) :
    find_optimal_plan solver K p srcs = Except.error PyErr.indexError := by
  unfold find_optimal_plan
  rw [hel]

/-- Witness for C10: the default-constructed borrower `personC9` hits the
`IndexError` even with a well-formed source list. -/
theorem claim_c10_witness :
    find_optimal_plan none kW personC9 [srcW] = Except.error PyErr.indexError :=
  claim_c10_index_error none kW personC9 [srcW] rfl

/-- Claim C5 is right about the intent and the code is wrong: `SAVEPlan`
overrides `_m` (the balance coefficient) with the 5% formula instead of
overriding `_b`, and inherits `PAYEPlan`'s 10% constant.  Evaluated at the
failing input (balance `0`, month `1`, `personX` with discretionary income
`12`): the code returns the 10% figure `1/10`, not the claimed value
`max(disc·0.05/12, 0) = 1/20`, and the payment is not independent of the
balance (`m ≠ 0`). -/
theorem claim_c5_save_plan_bug :
    (mkSAVEPlan (12/100) 20).monthly_payment 0 1 personX = 1/10 ∧
    (mkSAVEPlan (12/100) 20).monthly_payment 0 1 personX =
      max (personX.discretionary_income 0 * personX.discretionary_factor / 12) 0 ∧
    max (personX.discretionary_income 0 * (5/100) / 12) 0 = 1/20 ∧
    ((1:ℚ)/10 ≠ 1/20) ∧
    (mkSAVEPlan (12/100) 20).m_ 1 personX ≠ 0 ∧
    (mkSAVEPlan (12/100) 20).monthly_payment 1 1 personX ≠
      (mkSAVEPlan (12/100) 20).monthly_payment 0 1 personX :=
  of_decide_eq_true (by with_unfolding_all rfl)

set_option maxRecDepth 8000 in
/-- Claim C7 is right about the intent and the code is wrong: `ICRPlan._m`
takes the minimum of the 20% discretionary-income dollar amount and the
12-year standard *coefficient* (a per-dollar ratio), then multiplies the
result by the balance.  Evaluated at the failing input (balance `10000`,
month `1`, `personC7` with discretionary income `0.12`): the code pays
`20`, while the claimed value — the lesser of `0.12·0.2/12 = 1/500` and the
12-year standard payment on `10000` — is `1/500`. -/
theorem claim_c7_icr_plan_bug :
    (mkICRPlan (12/100) 25).monthly_payment 10000 1 personC7 = 20 ∧
    min (personC7.discretionary_income 0 * (20/100) / 12)
      ((mkStandardPlan (12/100) 12).monthly_payment 10000 1 personC7) = 1/500 ∧
    ((20:ℚ) ≠ 1/500) :=
  of_decide_eq_true (by with_unfolding_all rfl)

/-- The replay loop `schedGo`, started at month `m` on the exact running
balance `balRun m`, produces exactly the rows of the remaining schedule:
at most `fuel` rows, at least one if any fuel remains, row `k` holding the
month number `m+k+1` and the cent-rounded payment, principal, interest and
updated balance of month `m+k`; every row before the last has running
balance above the `0.01` epsilon, and the loop stops short of its fuel only
because the balance fell to the epsilon. -/
lemma schedGo_spec (pl : Plan) (bal0 : ℚ) (over : ℕ → ℚ) :
    ∀ fuel m : ℕ,
      (schedGo pl over fuel m (balRun pl bal0 over m)).length ≤ fuel ∧
      (0 < fuel → 0 < (schedGo pl over fuel m (balRun pl bal0 over m)).length) ∧
      (∀ k (hk : k < (schedGo pl over fuel m (balRun pl bal0 over m)).length),
        (schedGo pl over fuel m (balRun pl bal0 over m)).get ⟨k, hk⟩ =
          ⟨m + k + 1, round2 (over (m + k)),
            round2 (over (m + k) - balRun pl bal0 over (m + k) * (pl.annual_rate / 12)),
            round2 (balRun pl bal0 over (m + k) * (pl.annual_rate / 12)),
            round2 (balRun pl bal0 over (m + k + 1))⟩) ∧
      (∀ k, k + 1 < (schedGo pl over fuel m (balRun pl bal0 over m)).length →
        1/100 < balRun pl bal0 over (m + k + 1)) ∧
      ((schedGo pl over fuel m (balRun pl bal0 over m)).length < fuel →
        balRun pl bal0 over
          (m + (schedGo pl over fuel m (balRun pl bal0 over m)).length) ≤ 1/100) := by
  intro fuel
  induction fuel with
  | zero =>
    intro m
    simp only [schedGo, List.length_nil]
    refine ⟨le_refl 0, by omega, ?_, ?_, ?_⟩
    · intro k hk; omega
    · intro k hk; omega
    · intro h; omega
  | succ fuel ih =>
    intro m
    have hstep : balRun pl bal0 over m -
        (over m - balRun pl bal0 over m * (pl.annual_rate / 12)) =
        balRun pl bal0 over (m + 1) := by
      simp only [balRun]
      ring
    simp only [schedGo]
    rw [hstep]
    by_cases hc : balRun pl bal0 over (m + 1) ≤ 1/100
    · rw [if_pos hc]
      refine ⟨by simp, fun _ => by simp, ?_, ?_, ?_⟩
      · intro k hk
        simp only [List.length_singleton] at hk
        have hk0 : k = 0 := by omega
        subst hk0
        rfl
      · intro k hk
        simp only [List.length_singleton] at hk
        omega
      · intro _
        exact hc
    · rw [if_neg hc]
      obtain ⟨ih1, ih2, ih3, ih4, ih5⟩ := ih (m + 1)
      refine ⟨?_, fun _ => by simp, ?_, ?_, ?_⟩
      · simp only [List.length_cons]
        omega
      · intro k hk
        match k with
        | 0 => rfl
        | k + 1 =>
          simp only [List.length_cons] at hk
          have hk' : k < (schedGo pl over fuel (m + 1)
              (balRun pl bal0 over (m + 1))).length := by omega
          have hget : (⟨m + 1, round2 (over m),
              round2 (over m - balRun pl bal0 over m * (pl.annual_rate / 12)),
              round2 (balRun pl bal0 over m * (pl.annual_rate / 12)),
              round2 (balRun pl bal0 over (m + 1))⟩ ::
                schedGo pl over fuel (m + 1) (balRun pl bal0 over (m + 1))).get
              ⟨k + 1, by simpa using hk⟩ =
              (schedGo pl over fuel (m + 1) (balRun pl bal0 over (m + 1))).get
                ⟨k, hk'⟩ := rfl
          rw [hget, ih3 k hk']
          have hmk : m + 1 + k = m + (k + 1) := by omega
          rw [hmk]
      · intro k hk
        simp only [List.length_cons] at hk
        match k with
        | 0 => exact lt_of_not_le hc
        | k + 1 =>
          have := ih4 k (by omega)
          have hmk : m + 1 + k + 1 = m + (k + 1) + 1 := by omega
          rwa [hmk] at this
      · intro hlen
        simp only [List.length_cons] at hlen ⊢
        have := ih5 (by omega)
        have hmk : m + 1 + (schedGo pl over fuel (m + 1)
            (balRun pl bal0 over (m + 1))).length =
            m + ((schedGo pl over fuel (m + 1)
              (balRun pl bal0 over (m + 1))).length + 1) := by omega
        rwa [hmk] at this

/-- Claim C8: `Plan.amortization_schedule` replays the supplied payment
trace month by month: row `k` records (to cent precision) the trace's
payment, the interest `balRun k · r`, the principal `payment − interest`,
and the balance after decrementing by that principal; the ledger stops at
the first month whose resulting balance is at or below `0.01` even if
months remain in the nominal term, and otherwise has `term_years·12` rows;
payments come only from the trace, never re-derived. -/
theorem claim_c8_amortization_replay (pl : Plan) (balance : ℚ) (p : Person)
    (over : ℕ → ℚ) :
    (pl.amortization_schedule balance p over).length ≤ pl.term_years * 12 ∧
    (0 < pl.term_years * 12 → 0 < (pl.amortization_schedule balance p over).length) ∧
    (∀ k (hk : k < (pl.amortization_schedule balance p over).length),
      (pl.amortization_schedule balance p over).get ⟨k, hk⟩ =
        ⟨k + 1, round2 (over k),
          round2 (over k - balRun pl balance over k * (pl.annual_rate / 12)),
          round2 (balRun pl balance over k * (pl.annual_rate / 12)),
          round2 (balRun pl balance over (k + 1))⟩) ∧
    (∀ k, balRun pl balance over (k + 1) =
      balRun pl balance over k -
        (over k - balRun pl balance over k * (pl.annual_rate / 12))) ∧
    (∀ k, k + 1 < (pl.amortization_schedule balance p over).length →
      1/100 < balRun pl balance over (k + 1)) ∧
    ((pl.amortization_schedule balance p over).length < pl.term_years * 12 →
      balRun pl balance over (pl.amortization_schedule balance p over).length ≤ 1/100) := by
  have h0 : balRun pl balance over 0 = balance := rfl
  have hs := schedGo_spec pl balance over (pl.term_years * 12) 0
  rw [h0] at hs
  obtain ⟨h1, h2, h3, h4, h5⟩ := hs
  unfold Plan.amortization_schedule
  refine ⟨h1, h2, ?_, ?_, ?_, ?_⟩
  · intro k hk
    have := h3 k hk
    simpa using this
  · intro k
    simp only [balRun]
    ring
  · intro k hk
    have := h4 k hk
    simpa using this
  · intro hlen
    have := h5 hlen
    simpa using this

/-- Witness for C8: the replay characterization applied at the concrete
one-year standard plan, starting balance `100`, and the all-zero trace. -/
theorem claim_c8_witness :
    ((planW.amortization_schedule 100 personW fun _ => 0).length ≤
      planW.term_years * 12 ∧
    (0 < planW.term_years * 12 →
      0 < (planW.amortization_schedule 100 personW fun _ => 0).length) ∧
    (∀ k (hk : k < (planW.amortization_schedule 100 personW fun _ => 0).length),
      (planW.amortization_schedule 100 personW fun _ => 0).get ⟨k, hk⟩ =
        ⟨k + 1, round2 0,
          round2 (0 - balRun planW 100 (fun _ => 0) k * (planW.annual_rate / 12)),
          round2 (balRun planW 100 (fun _ => 0) k * (planW.annual_rate / 12)),
          round2 (balRun planW 100 (fun _ => 0) (k + 1))⟩) ∧
    (∀ k, balRun planW 100 (fun _ => 0) (k + 1) =
      balRun planW 100 (fun _ => 0) k -
        (0 - balRun planW 100 (fun _ => 0) k * (planW.annual_rate / 12))) ∧
    (∀ k, k + 1 < (planW.amortization_schedule 100 personW fun _ => 0).length →
      1/100 < balRun planW 100 (fun _ => 0) (k + 1)) ∧
    ((planW.amortization_schedule 100 personW fun _ => 0).length <
        planW.term_years * 12 →
      balRun planW 100 (fun _ => 0)
        (planW.amortization_schedule 100 personW fun _ => 0).length ≤ 1/100)) :=
  claim_c8_amortization_replay planW 100 personW fun _ => 0

end StudentLoans
